import Mathlib

/-!
Verification of the issue-migration core of `redmine-gitlab-migrator`
(files `redmine_gitlab_migrator/commands.py` and `redmine_gitlab_migrator/db.py`).

The Python source is shallowly embedded: the migration driver
(`perform_migrate_issues`), the identifier recovery pass
(`perform_migrate_iid`), the CLI error handling (`main`, `check`) and the
database label lookup (`issue_labels`) become pure Lean functions.  The
GitLab / Redmine REST clients and the `sql.run_query` shell helper are
external collaborators (their modules are not part of the verified core);
where their behaviour matters it is modelled from the specification and the
model carries a doc comment saying so.
-/

namespace RGM

/-! ## Recovery marker regex (`commands.py` line 343)

`regex_saved_iid = r'-RM-([0-9]+)-MR-(.*)'`

The pattern is embedded as an executable matcher over `List Char`.
`matchMarkerAt` matches the pattern anchored at the start of the input; since
`-` is not a digit, the greedy group `([0-9]+)` can only ever capture the
maximal digit run (backtracking to a shorter run would leave a digit where
`-MR-` is required), so the matcher below is exact.  `(.*)` captures the
whole remainder.  `searchMarker` is the unanchored search (first position,
left to right) used when the pattern is applied to a description field. -/

def matchMarkerAt (cs : List Char) : Option (List Char × List Char) :=
  if cs.take 4 = ['-', 'R', 'M', '-'] then
    let afterRM := cs.drop 4
    let ds := afterRM.takeWhile Char.isDigit
    if ds.isEmpty then none
    else
      let afterDigits := afterRM.dropWhile Char.isDigit
      if afterDigits.take 4 = ['-', 'M', 'R', '-'] then
        some (ds, afterDigits.drop 4)
      else none
  else none

def searchMarker : List Char → Option (List Char × List Char)
  | [] => matchMarkerAt []
  | c :: cs =>
    match matchMarkerAt (c :: cs) with
    | some r => some r
    | none => searchMarker cs

/-- The text of a well-formed recovery marker `-RM-<ds>-MR-<es>`. -/
def markerString (ds es : List Char) : List Char :=
  '-' :: 'R' :: 'M' :: '-' :: (ds ++ '-' :: 'M' :: 'R' :: '-' :: es)

theorem takeWhile_digits_marker (p : Char → Bool) (ds es : List Char)
    (hds : ∀ c ∈ ds, p c = true) (hp : p '-' = false) :
    (ds ++ '-' :: 'M' :: 'R' :: '-' :: es).takeWhile p = ds := by
  induction ds with
  | nil => simp [List.takeWhile_cons, hp]
  | cons c cs ih =>
    have hc : p c = true := hds c (by simp)
    simp only [List.cons_append, List.takeWhile_cons, hc]
    simp [ih fun x hx => hds x (by simp [hx])]

theorem dropWhile_digits_marker (p : Char → Bool) (ds es : List Char)
    (hds : ∀ c ∈ ds, p c = true) (hp : p '-' = false) :
    (ds ++ '-' :: 'M' :: 'R' :: '-' :: es).dropWhile p = '-' :: 'M' :: 'R' :: '-' :: es := by
  induction ds with
  | nil => simp [List.dropWhile_cons, hp]
  | cons c cs ih =>
    have hc : p c = true := hds c (by simp)
    simp only [List.cons_append, List.dropWhile_cons, hc]
    simp [ih fun x hx => hds x (by simp [hx])]

theorem matchMarkerAt_marker (ds es : List Char) (hne : ds ≠ [])
    (hds : ∀ c ∈ ds, c.isDigit = true) :
    matchMarkerAt (markerString ds es) = some (ds, es) := by
  have hdash : ('-').isDigit = false := by decide
  unfold matchMarkerAt markerString
  simp only [List.take, List.drop, if_pos rfl]
  rw [takeWhile_digits_marker Char.isDigit ds es hds hdash,
      dropWhile_digits_marker Char.isDigit ds es hds hdash]
  simp [List.isEmpty_iff, hne]

theorem searchMarker_marker (ds es : List Char) (hne : ds ≠ [])
    (hds : ∀ c ∈ ds, c.isDigit = true) :
    searchMarker (markerString ds es) = some (ds, es) := by
  unfold markerString searchMarker
  rw [show ('-' :: 'R' :: 'M' :: '-' :: (ds ++ '-' :: 'M' :: 'R' :: '-' :: es))
        = markerString ds es from rfl,
      matchMarkerAt_marker ds es hne hds]

/-- Claim C3, counterexample.  The claim states that every malformed marker
string — e.g. one with a non-numeric target_iid — is not matched by the
recovery regex `-RM-([0-9]+)-MR-(.*)`.  This is false: the target_iid group
of the regex is the unrestricted pattern `.*`, so the malformed marker
`-RM-1500-MR-abc` (target_iid `abc`, which contains no digit at all) is
matched, capturing `("1500", "abc")`. -/
theorem searchMarker_matches_malformed_target_iid :
    searchMarker ("-RM-1500-MR-abc".toList)
      = some ("1500".toList, "abc".toList) ∧
    "abc".toList.any Char.isDigit = false := by
  exact ⟨by decide, by decide⟩

/-- Claim C3, amended.  Matching the recovery regex `-RM-([0-9]+)-MR-(.*)`
against a well-formed marker string `-RM-<ds>-MR-<es>` (with `ds` a nonempty
digit string) captures back exactly the pair `(ds, es)`; in particular the
marker for `(source_id 1500, target_iid 42)` decodes to exactly
`("1500", "42")`.  A marker whose source_id part is non-numeric (e.g.
`-RM-xyz-MR-42`) is not matched.  However the target_iid group is the
unrestricted pattern `.*`, so markers with a non-numeric target_iid are
still matched (see the counterexample theorem). -/
theorem c3_marker_roundtrip :
    (∀ ds es : List Char, ds ≠ [] → (∀ c ∈ ds, c.isDigit = true) →
        searchMarker (markerString ds es) = some (ds, es)) ∧
    searchMarker ("-RM-1500-MR-42".toList)
      = some ("1500".toList, "42".toList) ∧
    searchMarker ("-RM-xyz-MR-42".toList) = none := by
  exact ⟨fun ds es hne hds => searchMarker_marker ds es hne hds, by decide, by decide⟩

/-- Witness for `c3_marker_roundtrip` at the concrete pair `(1500, 42)`. -/
theorem c3_marker_roundtrip_witness :
    searchMarker (markerString "1500".toList "42".toList)
      = some ("1500".toList, "42".toList) :=
  c3_marker_roundtrip.1 ("1500".toList) ("42".toList) (by decide) (by decide)

/-! ## Issue migration driver (`commands.py`, `perform_migrate_issues`, lines 220–330)

The driver iterates over the converted issues `(data, meta, redmine_id)` and,
per issue, either validates it (`--check` mode) or performs the target API
calls: gap-filling placeholder create/delete (`--keep-id`), label and tag
creation, the real issue creation, and watcher creation.

The GitLab project client (`gitlab_project`) is an external collaborator
whose module is not part of the verified core.  Modelled from the spec: the
target assigns sequential ids, each created issue receiving the id one past
the last assigned one; the driver reads that id back from the creation
response (`last_iid = created['iid']`), so along a run the driver counter
and the target counter coincide and are embedded as the single counter
`lastIid`.  Any call may fail (raise); failures are injected through an
oracle `fails : Action → Bool`. -/

/-- One mutating call on the target GitLab project. -/
inductive Action where
  | createIssue (title : String) (iid : Nat)
  | deleteIssue (iid : Nat)
  | createLabel (name : String)
  | createWatcher (user : Nat) (iid : Nat)
  deriving DecidableEq

/-- How a command run terminates abnormally: a user-facing `CommandError`,
an ordinary Python exception, or `exit(code)` (`SystemExit`). -/
inductive MigErr where
  | commandError (msg : String)
  | exn (msg : String)
  | exitCode (code : Nat)
  deriving DecidableEq

/-- The target-create payload of one issue (`data` in the source). -/
structure IssueData where
  title : String
  milestone_id : Option Nat
  deriving DecidableEq

/-- The side-channel metadata of one converted issue (`meta` in the source).
Only the fields the driver reads are embedded. -/
structure IssueMeta where
  labels : List String
  tags : List String
  watchers : List Nat
  deriving DecidableEq

/-- One element of `issues_data`: `(data, meta, redmine_id)`. -/
structure ConvertedIssue where
  data : IssueData
  meta : IssueMeta
  redmine_id : Nat
  deriving DecidableEq

/-- `last_iid = int(args.initial_id or 1) - 1` (line 274): the counter starts
one below the configured starting id, which defaults to 1. -/
def initLastIid (initialId : Option Nat) : Nat :=
  initialId.getD 1 - 1

/-- Modelled from the spec: the GitLab client module (`gitlab.py`,
`GitlabProject.create_issue`) is not part of the verified sources.  Per the
spec, the target assigns sequential per-project ids the caller cannot
choose: a creation lands one past the last assigned id.  The driver reads
the id back from the creation response (`created['iid']`). -/
def assignedIid (lastAssigned : Nat) : Nat := lastAssigned + 1

/-- Modelled from the spec: `GitlabProject.get_milestone_by_id` (`gitlab.py`,
not part of the verified sources) resolves a milestone id in the target
project and raises `ValueError` when no milestone with that id exists. -/
def milestoneExists (milestones : List Nat) (mid : Nat) : Bool :=
  milestones.contains mid

/-- Body of the `--keep-id` gap-filling loop, by remaining iteration count:
each iteration creates a placeholder issue titled `"fake"`, advances
`last_iid` to the returned id (one past the previous, in the sequential
target model), and deletes the placeholder; an exception from either call
is logged and re-raised (lines 306–308). -/
def fillGapsAux (fails : Action → Bool) : Nat → Nat → List Action × Except MigErr Nat
  | 0, lastIid => ([], .ok lastIid)
  | gap + 1, lastIid =>
    let a := Action.createIssue "fake" (assignedIid lastIid)
    if fails a then ([a], .error (.exn "create issue fake failed"))
    else
      let d := Action.deleteIssue (assignedIid lastIid)
      if fails d then ([a, d], .error (.exn "delete issue fake failed"))
      else
        let rest := fillGapsAux fails gap (assignedIid lastIid)
        (a :: d :: rest.1, rest.2)

/-- The `--keep-id` gap-filling loop (lines 301–305):
`while redmine_id > last_iid + 1:` — each iteration advances `last_iid` by
exactly one, so the loop runs `redmine_id - (last_iid + 1)` times; it is
embedded structurally over that count.  Returns the trace of attempted
calls and either the new `last_iid` or the propagated error. -/
def fillGaps (fails : Action → Bool) (redmineId lastIid : Nat) :
    List Action × Except MigErr Nat :=
  fillGapsAux fails (redmineId - (lastIid + 1)) lastIid

/-- The label/tag creation loop (lines 312–317): `create_label` for each
name; an exception aborts the issue (caught at lines 328–330 and
re-raised). -/
def createLabels (fails : Action → Bool) : List String → List Action × Option MigErr
  | [] => ([], none)
  | n :: rest =>
    let a := Action.createLabel n
    if fails a then ([a], some (.exn ("create label failed: " ++ n)))
    else
      let r := createLabels fails rest
      (a :: r.1, r.2)

/-- The watcher creation loop (lines 324–325): `create_watcher` for each
watcher of the created issue. -/
def createWatchers (fails : Action → Bool) (iid : Nat) :
    List Nat → List Action × Option MigErr
  | [] => ([], none)
  | w :: rest =>
    let a := Action.createWatcher w iid
    if fails a then ([a], some (.exn "create watcher failed"))
    else
      let r := createWatchers fails iid rest
      (a :: r.1, r.2)

/-- Processing of a single converted issue in creation (non-check) mode
(lines 295–330): optional gap filling, labels, tags, the real issue
creation (which advances `last_iid` to the returned id — one past the
previous, in the sequential target model), then watchers.  Any failure is
re-raised, aborting with the trace of the calls attempted so far. -/
def processIssue (fails : Action → Bool) (keepId : Bool) (issue : ConvertedIssue)
    (lastIid : Nat) : List Action × Except MigErr Nat :=
  let gaps := if keepId then fillGaps fails issue.redmine_id lastIid
              else ([], .ok lastIid)
  match gaps.2 with
  | .error e => (gaps.1, .error e)
  | .ok l1 =>
    let labs := createLabels fails issue.meta.labels
    match labs.2 with
    | some e => (gaps.1 ++ labs.1, .error e)
    | none =>
      let tags := createLabels fails issue.meta.tags
      match tags.2 with
      | some e => (gaps.1 ++ labs.1 ++ tags.1, .error e)
      | none =>
        let a := Action.createIssue issue.data.title (assignedIid l1)
        if fails a then
          (gaps.1 ++ labs.1 ++ tags.1 ++ [a],
           .error (.exn ("create issue failed: " ++ issue.data.title)))
        else
          let ws := createWatchers fails (assignedIid l1) issue.meta.watchers
          match ws.2 with
          | some e => (gaps.1 ++ labs.1 ++ tags.1 ++ a :: ws.1, .error e)
          | none => (gaps.1 ++ labs.1 ++ tags.1 ++ a :: ws.1, .ok (assignedIid l1))

/-- The `CommandError` message of lines 282–285 for an unresolved
milestone. -/
def unknownMilestoneMsg (title : String) (mid : Nat) : String :=
  "issue \"" ++ title ++ "\" points to unknown milestone_id \"" ++ toString mid ++
    "\". Check that you already migrated roadmaps"

/-- The `--check` (dry-run) branch for a single issue (lines 276–293): if
the payload carries a truthy `milestone_id`, resolve it in the target
(`get_milestone_by_id`, an external read; modelled from the spec as a lookup
in the list `milestones` of existing milestone ids, raising `ValueError` on
a miss) and raise a `CommandError` naming the issue title and the milestone
id when it cannot be resolved.  No mutating call is made. -/
def checkIssue (milestones : List Nat) (issue : ConvertedIssue) : Except MigErr Unit :=
  match issue.data.milestone_id with
  | some mid =>
    if mid ≠ 0 then
      if milestoneExists milestones mid then .ok ()
      else .error (.commandError (unknownMilestoneMsg issue.data.title mid))
    else .ok ()
  | none => .ok ()

/-- The driver loop over `issues_data` (lines 275–330).  Returns the trace
of mutating calls and either the final `last_iid` or the first propagated
error; an error stops the iteration (the `for` loop is aborted by the
re-raised exception). -/
def migrateIssues (fails : Action → Bool) (milestones : List Nat)
    (keepId chk : Bool) : List ConvertedIssue → Nat → List Action × Except MigErr Nat
  | [], lastIid => ([], .ok lastIid)
  | issue :: rest, lastIid =>
    if chk then
      match checkIssue milestones issue with
      | .error e => ([], .error e)
      | .ok _ => migrateIssues fails milestones keepId chk rest lastIid
    else
      let p := processIssue fails keepId issue lastIid
      match p.2 with
      | .error e => (p.1, .error e)
      | .ok l1 =>
        let r := migrateIssues fails milestones keepId chk rest l1
        (p.1 ++ r.1, r.2)

/-- The all-calls-succeed oracle. -/
def noFail : Action → Bool := fun _ => false

/-- Claim C1.  Under gap-filling mode (`--keep-id`), for the source-issue id
sequence `[5, 6, 8]` with the counter initialized to 0 (`initial_id`
absent), the driver performs exactly: placeholders on target ids 1–4 (each
created then deleted), the real issue on id 5, the real issue on id 6, a
placeholder on id 7 (created then deleted), and the real issue on id 8;
afterwards `last_iid = 8`.  (Sequential id assignment by the target is
modelled from the spec, see the section comment.) -/
theorem keep_id_gap_filling_scenario :
    migrateIssues noFail [] true false
        [⟨⟨"Issue 5", none⟩, ⟨[], [], []⟩, 5⟩,
         ⟨⟨"Issue 6", none⟩, ⟨[], [], []⟩, 6⟩,
         ⟨⟨"Issue 8", none⟩, ⟨[], [], []⟩, 8⟩] (initLastIid none) =
      ([Action.createIssue "fake" 1, Action.deleteIssue 1,
        Action.createIssue "fake" 2, Action.deleteIssue 2,
        Action.createIssue "fake" 3, Action.deleteIssue 3,
        Action.createIssue "fake" 4, Action.deleteIssue 4,
        Action.createIssue "Issue 5" 5,
        Action.createIssue "Issue 6" 6,
        Action.createIssue "fake" 7, Action.deleteIssue 7,
        Action.createIssue "Issue 8" 8],
       Except.ok 8) := by
  rfl

theorem fillGapsAux_noFail_ok (gap : Nat) :
    ∀ lastIid, (fillGapsAux noFail gap lastIid).2 = Except.ok (lastIid + gap) := by
  induction gap with
  | zero => intro lastIid; rfl
  | succ g ih =>
    intro lastIid
    simp only [fillGapsAux, noFail, Bool.false_eq_true, if_false, assignedIid,
      ih (lastIid + 1)]
    congr 1
    omega

theorem fillGaps_noFail_ok (redmineId lastIid : Nat) (h : lastIid < redmineId) :
    (fillGaps noFail redmineId lastIid).2 = Except.ok (redmineId - 1) := by
  unfold fillGaps
  rw [fillGapsAux_noFail_ok]
  congr 1
  omega

theorem createLabels_noFail_ok (ns : List String) :
    (createLabels noFail ns).2 = none := by
  induction ns with
  | nil => rfl
  | cons n rest ih => simp [createLabels, noFail, ih]

theorem createWatchers_noFail_ok (iid : Nat) (ws : List Nat) :
    (createWatchers noFail iid ws).2 = none := by
  induction ws with
  | nil => rfl
  | cons w rest ih => simp [createWatchers, noFail, ih]

/-- Claim C4.  With gap-filling enabled: the counter is initialized to the
configured starting id minus one (the starting id defaulting to 1), and
after the driver processes a source issue with id `S` from any counter
value strictly below `S` (as holds throughout an ascending run started at
or below the first id), the counter equals `S` — the target sequential id
handed out for the real creation is exactly `S`.  Sequential id assignment
one past the last assigned id is the spec-modelled target behaviour. -/
theorem keep_id_invariant :
    (initLastIid none = 0) ∧
    (∀ s, 1 ≤ s → initLastIid (some s) = s - 1) ∧
    (∀ (issue : ConvertedIssue) (lastIid : Nat), lastIid < issue.redmine_id →
      (processIssue noFail true issue lastIid).2 = Except.ok issue.redmine_id) := by
  refine ⟨rfl, fun s _ => rfl, fun issue lastIid h => ?_⟩
  have hgap := fillGaps_noFail_ok issue.redmine_id lastIid h
  have hlab := createLabels_noFail_ok issue.meta.labels
  have htag := createLabels_noFail_ok issue.meta.tags
  have hw := createWatchers_noFail_ok (issue.redmine_id - 1 + 1) issue.meta.watchers
  simp only [processIssue, if_true, hgap, hlab, htag, hw, noFail, Bool.false_eq_true,
    if_false, assignedIid]
  have : issue.redmine_id - 1 + 1 = issue.redmine_id := by omega
  simp [this]

/-- Witness for `keep_id_invariant`: a source issue with id 3 processed from
counter 0 lands on target id 3. -/
theorem keep_id_invariant_witness :
    (processIssue noFail true ⟨⟨"t", none⟩, ⟨[], [], []⟩, 3⟩ 0).2 = Except.ok 3 :=
  keep_id_invariant.2.2 ⟨⟨"t", none⟩, ⟨[], [], []⟩, 3⟩ 0 (by decide)

/-- Claim C9.  The driver is fail-fast: for any failure oracle and any batch
`pre ++ bad :: post` in creation mode, if the run of the batch up to and
including `bad` ends in an error (a failed placeholder creation or deletion,
label creation, issue creation, or watcher creation — the only operations
that can fail), then the run of the full batch performs exactly the calls
of that failing prefix run (so no call at all is made for the issues in
`post`) and propagates the same error. -/
theorem migrate_issues_fail_fast (fails : Action → Bool) (ms : List Nat)
    (keepId : Bool) (pre : List ConvertedIssue) (bad : ConvertedIssue)
    (post : List ConvertedIssue) (lastIid : Nat) (e : MigErr)
    (h : (migrateIssues fails ms keepId false (pre ++ [bad]) lastIid).2 = .error e) :
    migrateIssues fails ms keepId false (pre ++ bad :: post) lastIid =
      ((migrateIssues fails ms keepId false (pre ++ [bad]) lastIid).1, .error e) := by
  induction pre generalizing lastIid with
  | nil =>
    simp only [List.nil_append] at h ⊢
    cases hp : (processIssue fails keepId bad lastIid).2 with
    | error e2 =>
      simp only [migrateIssues, Bool.false_eq_true, if_false, hp] at h ⊢
      injection h with h2
      rw [h2]
    | ok l1 =>
      simp only [migrateIssues, Bool.false_eq_true, if_false, hp] at h
      exact Except.noConfusion h
  | cons i rest ih =>
    simp only [List.cons_append] at h ⊢
    cases hp : (processIssue fails keepId i lastIid).2 with
    | error e2 =>
      simp only [migrateIssues, Bool.false_eq_true, if_false, hp] at h ⊢
      injection h with h2
      rw [h2]
    | ok l1 =>
      simp only [migrateIssues, Bool.false_eq_true, if_false, hp] at h ⊢
      rw [ih l1 h]

/-- Witness for `migrate_issues_fail_fast`: a batch of two issues where the
creation of the first fails; the second issue is never touched. -/
theorem migrate_issues_fail_fast_witness :
    migrateIssues (fun a => decide (a = Action.createIssue "bad" 1)) [] false false
        [⟨⟨"bad", none⟩, ⟨[], [], []⟩, 1⟩, ⟨⟨"after", none⟩, ⟨[], [], []⟩, 2⟩] 0 =
      ([Action.createIssue "bad" 1], .error (.exn "create issue failed: bad")) :=
  migrate_issues_fail_fast (fun a => decide (a = Action.createIssue "bad" 1)) [] false
    [] ⟨⟨"bad", none⟩, ⟨[], [], []⟩, 1⟩ [⟨⟨"after", none⟩, ⟨[], [], []⟩, 2⟩] 0
    (.exn "create issue failed: bad") rfl

theorem strAppend_data (a b : String) : (a ++ b).data = a.data ++ b.data := rfl

/-- Claim C6.  In dry-run (`--check`) mode of the issues migration:
(1) the driver performs no mutating call on the target at all — its call
trace is empty for every batch, every oracle and every configuration, both
before and after any error; (2) an issue whose payload references a
milestone id that cannot be resolved in the target project makes the run
abort with a user-facing `CommandError`; and (3) that error's message names
both the issue title and the unresolved milestone id (each occurs verbatim
in the message text). -/
theorem check_mode_validates_without_mutation :
    (∀ (fails : Action → Bool) (ms : List Nat) (keepId : Bool)
        (issues : List ConvertedIssue) (lastIid : Nat),
      (migrateIssues fails ms keepId true issues lastIid).1 = []) ∧
    (∀ (fails : Action → Bool) (ms : List Nat) (keepId : Bool)
        (issue : ConvertedIssue) (rest : List ConvertedIssue) (lastIid mid : Nat),
      issue.data.milestone_id = some mid → mid ≠ 0 → ms.contains mid = false →
      migrateIssues fails ms keepId true (issue :: rest) lastIid =
        ([], .error (.commandError (unknownMilestoneMsg issue.data.title mid)))) ∧
    (∀ (t : String) (m : Nat), ∃ p₁ s₁ p₂ s₂ : List Char,
      (unknownMilestoneMsg t m).data = p₁ ++ t.data ++ s₁ ∧
      (unknownMilestoneMsg t m).data = p₂ ++ (toString m).data ++ s₂) := by
  refine ⟨?_, ?_, ?_⟩
  · intro fails ms keepId issues lastIid
    induction issues generalizing lastIid with
    | nil => rfl
    | cons i rest ih =>
      simp only [migrateIssues, if_true]
      cases checkIssue ms i with
      | error e => rfl
      | ok _ => exact ih lastIid
  · intro fails ms keepId issue rest lastIid mid hmid hne hmiss
    simp only [migrateIssues, if_true, checkIssue, hmid, hne, ne_eq,
      not_false_iff, if_true, milestoneExists, hmiss, Bool.false_eq_true, if_false]
  · intro t m
    refine ⟨"issue \"".data, ("\" points to unknown milestone_id \"" ++ toString m ++
        "\". Check that you already migrated roadmaps").data,
      ("issue \"" ++ t ++ "\" points to unknown milestone_id \"").data,
      "\". Check that you already migrated roadmaps".data, ?_, ?_⟩ <;>
      simp [unknownMilestoneMsg, strAppend_data, List.append_assoc]

/-- Witness for `check_mode_validates_without_mutation`: a dry run over one
issue pointing at the unknown milestone id 7 mutates nothing and raises the
`CommandError` naming the title and the id. -/
theorem check_mode_validates_without_mutation_witness :
    migrateIssues noFail [1, 2] true true
        [⟨⟨"My issue", some 7⟩, ⟨[], [], []⟩, 1⟩] 0 =
      ([], .error (.commandError (unknownMilestoneMsg "My issue" 7))) :=
  check_mode_validates_without_mutation.2.1 noFail [1, 2] true
    ⟨⟨"My issue", some 7⟩, ⟨[], [], []⟩, 1⟩ [] 0 7 rfl (by decide) (by decide)

/-! ## Identifier recovery pass (`commands.py`, `perform_migrate_iid`, lines 332–388)

The pass runs three SQL statements through the external `sql.run_query`
collaborator: the `SCAN` count of unmigrated marked issues
(`COUNT_UNMIGRATED_ISSUES`), the `SPACE` update (`UPDATE_IID_ISSUES`) and
the `REWRITE` update (`MIGRATE_IID_ISSUES`).  The collaborator's raw text
outputs are inputs of the embedding (`IidEnv`). -/

/-- The three SQL statements of the recovery pass. -/
inductive SqlStmt where
  | countUnmigrated
  | updateIid
  | migrateIid
  deriving DecidableEq

/-- The raw outputs `sql.run_query` returns for the three statements:
`output` (SCAN), `out1` (SPACE), `out2` (REWRITE). -/
structure IidEnv where
  scanOutput : String
  spaceOutput : String
  rewriteOutput : String
  deriving DecidableEq

/-- Python `\s` whitespace (ASCII range). -/
def isPySpace (c : Char) : Bool :=
  c = ' ' || c = '\t' || c = '\n' || c = '\r' || c = '\x0b' || c = '\x0c'

/-- Numeric value of a digit string. -/
def digitsToNat (ds : List Char) : Nat :=
  ds.foldl (fun acc c => acc * 10 + (c.toNat - '0'.toNat)) 0

/-- `re.match(r'\s*(\d+)\s*', output, re.DOTALL | re.MULTILINE)` followed by
`int(m.group(1))` (lines 350–352 and 379–383): skip leading whitespace and
read the maximal digit run; the match fails (`AttributeError` on `m.group`,
modelled as `none`) when no digit follows the leading whitespace. -/
def parseCount (cs : List Char) : Option Nat :=
  let t := cs.dropWhile isPySpace
  let ds := t.takeWhile Char.isDigit
  if ds.isEmpty then none else some (digitsToNat ds)

def readyMsg (n : Nat) : String :=
  "Ready to recover iid for " ++ toString n ++ " issues."

def noIssueMsg : String :=
  "No issue to migrate iid, possible causes: you already migrated iid " ++
    "or you haven't migrated issues yet."

def migratedMsg (n : Nat) : String :=
  "Migrated successfully iid for " ++ toString n ++ " issues"

/-- `perform_migrate_iid` (lines 332–388): run the SCAN count and parse its
output (an unparsable output raises `ValueError`); if the count is zero,
log the nothing-to-migrate error and `exit(1)`; otherwise, unless in
`--check` mode, run the SPACE (`out1`) and REWRITE (`out2`) updates and
report the migrated count.  NOTE the source re-parses `output` — the SCAN
output — at lines 380–382 instead of `out2`, which this embedding
reproduces faithfully; `out1` and `out2` are never read.  Returns the
executed statements, the log lines, and the outcome (`some n` meaning
"Migrated successfully iid for n issues" was reported; `none` a `--check`
run). -/
def performMigrateIid (chk : Bool) (env : IidEnv) :
    List SqlStmt × List String × Except MigErr (Option Nat) :=
  match parseCount env.scanOutput.data with
  | none =>
    ([SqlStmt.countUnmigrated], [],
     .error (.exn ("Invalid output from postgres command: " ++ env.scanOutput)))
  | some issuesCount =>
    if 0 < issuesCount then
      if chk then
        ([SqlStmt.countUnmigrated], [readyMsg issuesCount], .ok none)
      else
        match parseCount env.scanOutput.data with
        | some migratedCount =>
          ([SqlStmt.countUnmigrated, SqlStmt.updateIid, SqlStmt.migrateIid],
           [readyMsg issuesCount, migratedMsg migratedCount], .ok (some migratedCount))
        | none =>
          ([SqlStmt.countUnmigrated, SqlStmt.updateIid, SqlStmt.migrateIid],
           [readyMsg issuesCount],
           .error (.exn ("Invalid output from postgres command: " ++ env.scanOutput)))
    else
      ([SqlStmt.countUnmigrated], [noIssueMsg], .error (.exitCode 1))

/-- Claim C2 (code bug).  The recovery pass is supposed to report the number
of rows affected by the REWRITE statement and surface a mismatch with the
SCAN count; instead, lines 380–383 re-parse `output` — the SCAN output —
so the reported count is always the SCAN count, independent of the REWRITE
result (`out2` is assigned at line 377 and never read), and no mismatch can
ever be detected.  Concretely: with SCAN output `"3"` and REWRITE output
`"2"`, the pass reports 3 migrated issues while the REWRITE affected 2 rows,
and nothing is surfaced. -/
theorem iid_pass_reports_scan_count_not_rewrite :
    performMigrateIid false ⟨"3", "3", "2"⟩ =
      ([SqlStmt.countUnmigrated, SqlStmt.updateIid, SqlStmt.migrateIid],
       [readyMsg 3, migratedMsg 3], .ok (some 3)) ∧
    parseCount ("2".data) = some 2 ∧
    (∀ rewriteOut : String,
      (performMigrateIid false ⟨"3", "3", rewriteOut⟩).2.2 = .ok (some 3)) := by
  exact ⟨rfl, rfl, fun _ => rfl⟩

/-- Claim C5.  When the SCAN phase counts zero unmigrated marked issues, the
pass reports "nothing to migrate", terminates via `exit(1)` (a non-zero
exit), and executes neither the SPACE nor the REWRITE update — the only
statement run is the SCAN count, so nothing in the target store is
mutated. -/
theorem iid_pass_scan_zero_no_mutation (chk : Bool) (env : IidEnv)
    (h : parseCount env.scanOutput.data = some 0) :
    performMigrateIid chk env =
        ([SqlStmt.countUnmigrated], [noIssueMsg], .error (.exitCode 1)) ∧
    SqlStmt.updateIid ∉ (performMigrateIid chk env).1 ∧
    SqlStmt.migrateIid ∉ (performMigrateIid chk env).1 := by
  have hrun : performMigrateIid chk env =
      ([SqlStmt.countUnmigrated], [noIssueMsg], .error (.exitCode 1)) := by
    simp [performMigrateIid, h]
  refine ⟨hrun, ?_, ?_⟩ <;> rw [hrun] <;> decide

/-- Witness for `iid_pass_scan_zero_no_mutation` at SCAN output `"0"`. -/
theorem iid_pass_scan_zero_no_mutation_witness :
    performMigrateIid false ⟨"0", "x", "y"⟩ =
      ([SqlStmt.countUnmigrated], [noIssueMsg], .error (.exitCode 1)) :=
  (iid_pass_scan_zero_no_mutation false ⟨"0", "x", "y"⟩ rfl).1

/-! ## CLI error handling (`commands.py`, `main` lines 518–534 and `check` lines 159–166) -/

/-- The process exit code determined by how `args.func(args)` ends:
`main` catches `CommandError` and calls `exit(12)`; `exit(n)` raises
`SystemExit(n)` which propagates to the interpreter; any other uncaught
exception makes the interpreter exit with code 1; normal return exits 0. -/
def exitCodeOf {α : Type} : Except MigErr α → Nat
  | .ok _ => 0
  | .error (.commandError _) => 12
  | .error (.exitCode n) => n
  | .error (.exn _) => 1

/-- The `check` helper (lines 159–166): log the message, call the check
function, and `exit(1)` when it returns a falsy value. -/
def checkStep (ret : Bool) : Except MigErr Unit :=
  if ret then .ok () else .error (.exitCode 1)

/-- Claim C7.  A user-facing `CommandError` makes the process exit with code
12, whatever command raised it; a precondition check function returning
false makes it exit with code 1; and the recovery pass finding nothing to
migrate (SCAN count zero) makes it exit with code 1. -/
theorem cli_exit_codes :
    (∀ msg : String,
      exitCodeOf (Except.error (MigErr.commandError msg) : Except MigErr Unit) = 12) ∧
    (∀ b : Bool, b = false → exitCodeOf (checkStep b) = 1) ∧
    (∀ (chk : Bool) (env : IidEnv), parseCount env.scanOutput.data = some 0 →
      exitCodeOf (performMigrateIid chk env).2.2 = 1) := by
  refine ⟨fun msg => rfl, fun b hb => by rw [hb]; rfl, fun chk env h => ?_⟩
  simp [performMigrateIid, h, exitCodeOf]

/-- Witness for `cli_exit_codes`: a failed check and a nothing-to-migrate
recovery run both exit 1. -/
theorem cli_exit_codes_witness :
    exitCodeOf (checkStep false) = 1 ∧
    exitCodeOf (performMigrateIid true ⟨" 0 ", "", ""⟩).2.2 = 1 :=
  ⟨cli_exit_codes.2.1 false rfl, cli_exit_codes.2.2 true ⟨" 0 ", "", ""⟩ rfl⟩

/-! ## Source issue id-range filter (`commands.py`, lines 257–262) -/

/-- A fetched source (Redmine) issue, reduced to the `id` field the filter
reads. -/
structure RIssue where
  id : Nat
  deriving DecidableEq

/-- Lines 259–262:
`if args.initial_id: issues = [i for i in issues if int(initial_id) <= i['id']]`
`if args.max_id:     issues = [i for i in issues if int(max_id) >= i['id']]` -/
def filterIssuesRange (initialId maxId : Option Nat) (issues : List RIssue) :
    List RIssue :=
  let issues1 := match initialId with
    | some lo => issues.filter (fun i => lo ≤ i.id)
    | none => issues
  match maxId with
  | some hi => issues1.filter (fun i => i.id ≤ hi)
  | none => issues1

/-- Claim C8.  The issues the driver goes on to convert and create are
exactly the fetched issues whose id lies within the optional bounds
(`initial_id ≤ id` when given, `id ≤ max_id` when given); the filtered list
is a sublist of the fetched list, so the surviving issues are processed in
the very order they were fetched; and with no bound given, every fetched
issue is kept. -/
theorem issue_range_filter :
    (∀ (lo hi : Option Nat) (l : List RIssue) (x : RIssue),
      x ∈ filterIssuesRange lo hi l ↔
        x ∈ l ∧ (∀ a, lo = some a → a ≤ x.id) ∧ (∀ b, hi = some b → x.id ≤ b)) ∧
    (∀ (lo hi : Option Nat) (l : List RIssue), (filterIssuesRange lo hi l).Sublist l) ∧
    (∀ l : List RIssue, filterIssuesRange none none l = l) := by
  refine ⟨?_, ?_, fun l => rfl⟩
  · intro lo hi l x
    cases lo <;> cases hi <;>
      (simp [filterIssuesRange, List.mem_filter]; try tauto)
  · intro lo hi l
    cases lo <;> cases hi <;> simp only [filterIssuesRange] <;>
      first
        | exact List.Sublist.refl l
        | exact List.filter_sublist l
        | exact (List.filter_sublist _).trans (List.filter_sublist l)

/-- Witness for `issue_range_filter`: with bounds 2 and 5, the issue with
id 3 survives the filter. -/
theorem issue_range_filter_witness :
    (⟨3⟩ : RIssue) ∈ filterIssuesRange (some 2) (some 5) [⟨1⟩, ⟨3⟩, ⟨6⟩] :=
  (issue_range_filter.1 (some 2) (some 5) [⟨1⟩, ⟨3⟩, ⟨6⟩] ⟨3⟩).mpr
    ⟨by decide, fun a ha => by cases ha; decide, fun b hb => by cases hb; decide⟩

/-! ## Redmine database label lookup (`db.py`, `issue_labels`, lines 139–165)

The peewee query joins `issues` with `trackers`, `issue_statuses`,
`enumerations` (restricted to `type = 'IssuePriority'`) by inner joins and
with `issue_categories` by a LEFT OUTER join, filters on the issue id, and
takes the first row.  The tables are embedded as lists of rows; `find?`
plays the role of the join lookup (any matching row completes the joined
row, a missing inner-join partner removes the issue row from the result,
a missing category leaves the category column NULL — the `DoesNotExist`
caught at lines 160–163). -/

structure TrackerRow where
  id : Nat
  name : String
  deriving DecidableEq

structure StatusRow where
  id : Nat
  name : String
  deriving DecidableEq

structure EnumRow where
  id : Nat
  name : String
  etype : String
  deriving DecidableEq

structure CategoryRow where
  id : Nat
  name : String
  deriving DecidableEq

structure IssueRow where
  id : Nat
  tracker_id : Nat
  status_id : Nat
  priority_id : Nat
  category_id : Option Nat
  deriving DecidableEq

structure RedmineDb where
  trackers : List TrackerRow
  statuses : List StatusRow
  enumerations : List EnumRow
  categories : List CategoryRow
  issues : List IssueRow
  deriving DecidableEq

/-- The joined row built from one `issues` row, or `none` when the row
does not satisfy the `where` clause or an inner join finds no partner. -/
def joinIssueRow (db : RedmineDb) (iid : Nat) (i : IssueRow) :
    Option (TrackerRow × StatusRow × EnumRow × Option CategoryRow) :=
  if i.id = iid then
    match db.trackers.find? (fun t => t.id == i.tracker_id),
          db.statuses.find? (fun s => s.id == i.status_id),
          db.enumerations.find?
            (fun e => e.id == i.priority_id && e.etype == "IssuePriority") with
    | some t, some s, some e =>
      some (t, s, e, db.categories.find? (fun c => i.category_id == some c.id))
    | _, _, _ => none
  else none

/-- `issue_labels(iid)` (db.py lines 139–165): `(tracker, status, priority,
category)` names of the first matching joined row, all `None` when no row
matches, and `category = None` when the LEFT OUTER category join found no
partner. -/
def issue_labels (db : RedmineDb) (iid : Nat) :
    Option String × Option String × Option String × Option String :=
  match db.issues.findSome? (joinIssueRow db iid) with
  | none => (none, none, none, none)
  | some (t, s, e, c) => (some t.name, some s.name, some e.name, c.map (fun cr => cr.name))

theorem findSome?_eq_none_of_all {α β : Type} (f : α → Option β) (l : List α)
    (h : ∀ x ∈ l, f x = none) : l.findSome? f = none := by
  induction l with
  | nil => rfl
  | cons a as ih =>
    have ha : f a = none := h a (by simp)
    simp only [List.findSome?, ha]
    exact ih fun x hx => h x (by simp [hx])

theorem findSome?_eq_some_of_unique {α β : Type} (f : α → Option β) (l : List α)
    (a : α) (b : β) (ha : a ∈ l) (hfa : f a = some b)
    (hother : ∀ x ∈ l, x ≠ a → f x = none) : l.findSome? f = some b := by
  induction l with
  | nil => cases ha
  | cons x xs ih =>
    by_cases hxa : x = a
    · subst hxa
      simp only [List.findSome?, hfa]
    · have hx : f x = none := hother x (by simp) hxa
      simp only [List.findSome?, hx]
      rcases List.mem_cons.mp ha with h1 | h1
      · exact absurd h1.symm hxa
      · exact ih h1 fun y hy => hother y (by simp [hy])

/-- Claim C10.  The label lookup represents absence as optional values and
never lets a lookup miss escape as an exception: (1) when no issue with the
requested id exists, it returns `(None, None, None, None)`; (2) when the
(unique) issue with that id exists and its tracker, status and priority
resolve but no category record matches (either `category_id` is NULL or
no category row has that id), it returns the three names with category
`None`. -/
theorem issue_labels_absence :
    (∀ (db : RedmineDb) (iid : Nat), (∀ i ∈ db.issues, i.id ≠ iid) →
      issue_labels db iid = (none, none, none, none)) ∧
    (∀ (db : RedmineDb) (iid : Nat) (i : IssueRow) (t : TrackerRow)
        (s : StatusRow) (e : EnumRow),
      i ∈ db.issues → i.id = iid → (∀ j ∈ db.issues, j.id = iid → j = i) →
      db.trackers.find? (fun tr => tr.id == i.tracker_id) = some t →
      db.statuses.find? (fun st => st.id == i.status_id) = some s →
      db.enumerations.find?
          (fun en => en.id == i.priority_id && en.etype == "IssuePriority") = some e →
      db.categories.find? (fun c => i.category_id == some c.id) = none →
      issue_labels db iid = (some t.name, some s.name, some e.name, none)) := by
  constructor
  · intro db iid hno
    have : db.issues.findSome? (joinIssueRow db iid) = none := by
      refine findSome?_eq_none_of_all _ _ fun i hi => ?_
      simp [joinIssueRow, hno i hi]
    simp [issue_labels, this]
  · intro db iid i t s e hmem hid huniq ht hs he hc
    have hrow : joinIssueRow db iid i = some (t, s, e, none) := by
      simp [joinIssueRow, hid, ht, hs, he, hc]
    have : db.issues.findSome? (joinIssueRow db iid) = some (t, s, e, none) := by
      refine findSome?_eq_some_of_unique _ _ i _ hmem hrow fun j hj hji => ?_
      by_cases hjid : j.id = iid
      · exact absurd (huniq j hj hjid) hji
      · simp [joinIssueRow, hjid]
    simp [issue_labels, this]

/-- Witness for `issue_labels_absence`: a database with one issue whose
category id is NULL yields the three names and no category. -/
theorem issue_labels_absence_witness :
    issue_labels
        ⟨[⟨1, "Bug"⟩], [⟨2, "Closed"⟩], [⟨3, "High", "IssuePriority"⟩], [],
         [⟨1500, 1, 2, 3, none⟩]⟩ 1500 =
      (some "Bug", some "Closed", some "High", none) :=
  issue_labels_absence.2
    ⟨[⟨1, "Bug"⟩], [⟨2, "Closed"⟩], [⟨3, "High", "IssuePriority"⟩], [],
     [⟨1500, 1, 2, 3, none⟩]⟩ 1500
    ⟨1500, 1, 2, 3, none⟩ ⟨1, "Bug"⟩ ⟨2, "Closed"⟩ ⟨3, "High", "IssuePriority"⟩
    (by decide) rfl (by decide) rfl rfl rfl rfl

end RGM









